import Mathlib

/-!
Shallow embedding of the replication-lag write gate in
`eden/mononoke/common/wait_for_replication/src/lib.rs`.

Time is modelled in abstract units (think milliseconds) as `Nat`:
an `Instant` is a `Nat` timestamp, a `Duration` is a `Nat`, and
`instant.elapsed()` at wall-clock time `now` is `now - instant`
(truncated subtraction; `Instant` is monotone so elapsed is never
negative).  The raw config fields are signed integers in the source
(thrift `i64`), so they are modelled as `Int`, and the
`try_into()?` conversion to an unsigned millisecond count fails
exactly on negative values.  The `ReplicaLagMonitor` is an external
capability: one call of the per-target step consults it at most
once, so its behaviour within the call is a single outcome, either
a success carrying the observed `delay` or an error code that the
gate propagates unchanged.
-/

deriving instance DecidableEq for Except

/-- Per-target threshold configuration (`ReplicationLagTableConfig`
from `replication_lag_config`): raw signed millisecond values read
from the config store. -/
structure ReplicationLagTableConfig where
  max_replication_lag_allowed_ms : Int
  poll_interval_ms : Int
deriving DecidableEq, Repr

/-- The full reloadable configuration
(`ReplicationLagBlobstoreConfig`): one optional threshold entry per
target. -/
structure ReplicationLagBlobstoreConfig where
  sync_queue : Option ReplicationLagTableConfig
  xdb_blobstore : Option ReplicationLagTableConfig
deriving DecidableEq, Repr

/-- The gate's shared mutable state (`State`): the last cached
`(Instant, Duration)` observation per target. -/
structure State where
  last_sync_queue_lag : Option (Nat × Nat)
  last_xdb_blobstore_lag : Option (Nat × Nat)
deriving DecidableEq, Repr

/-- Outcome of the single `monitor.wait_for_replication(&config)`
query a step may issue: success carries the observed lag
(`new_last_lag.delay`), failure carries an opaque error code. -/
inductive MonitorResult
  | success (delay : Nat)
  | failure (code : Nat)
deriving DecidableEq, Repr

/-- Errors a per-target step can surface: the `TryFromIntError`
from converting a raw millisecond value (`try_into()?`), or a
monitor failure propagated as-is. -/
inductive GateError
  | conversion
  | monitor (code : Nat)
deriving DecidableEq, Repr

/-- Result of one per-target step: the `Result<()>` returned, the
cache slot for that target after the step, and how many monitor
queries the step issued. -/
structure StepResult where
  result : Except GateError Unit
  last_lag : Option (Nat × Nat)
  queries : Nat
deriving DecidableEq, Repr

/-- Embedding of `raw.try_into()?` used at lines 141-142 of the
source: converting a signed raw millisecond count to an unsigned
duration fails exactly when the value is negative. -/
def try_into_u64 (raw : Int) : Except GateError Nat :=
  if raw < 0 then Except.error GateError.conversion else Except.ok raw.toNat

/-- Embedding of `wait_for_table` (lib.rs lines 131-171).  `now` is
the wall-clock time at which the cached observation's
`instant.elapsed()` is read; `query_now` is the `Instant::now()`
taken after a monitor query completes (line 168).  The monitor's
`wait_for_replication` is consulted at most once, with outcome
`monitor`. -/
def wait_for_table (now query_now : Nat) (last_lag : Option (Nat × Nat))
    (monitor : MonitorResult) (config : Option ReplicationLagTableConfig) :
    StepResult :=
  match config with
  | none => ⟨Except.ok (), last_lag, 0⟩
  | some raw_config =>
    match try_into_u64 raw_config.max_replication_lag_allowed_ms with
    | Except.error e => ⟨Except.error e, last_lag, 0⟩
    | Except.ok max_replication_lag_allowed =>
      match try_into_u64 raw_config.poll_interval_ms with
      | Except.error e => ⟨Except.error e, last_lag, 0⟩
      | Except.ok poll_interval =>
        match last_lag with
        | some (instant, duration) =>
          -- If queried too recently, just assume it's all ok.
          if now - instant < poll_interval ∧
              duration < max_replication_lag_allowed then
            ⟨Except.ok (), last_lag, 0⟩
          -- If impossible to have surpassed replication_lag, don't query
          else if duration + (now - instant) < max_replication_lag_allowed then
            ⟨Except.ok (), last_lag, 0⟩
          else
            match monitor with
            | MonitorResult.success delay =>
              ⟨Except.ok (), some (query_now, delay), 1⟩
            | MonitorResult.failure code =>
              ⟨Except.error (GateError.monitor code), last_lag, 1⟩
        | none =>
          match monitor with
          | MonitorResult.success delay =>
            ⟨Except.ok (), some (query_now, delay), 1⟩
          | MonitorResult.failure code =>
            ⟨Except.error (GateError.monitor code), last_lag, 1⟩

/-- Result of one `wait_for_replication` call: the returned
`Result<()>`, the state after the call, and the per-target monitor
query counts. -/
structure GateResult where
  result : Except GateError Unit
  state : State
  sync_queue_queries : Nat
  xdb_blobstore_queries : Nat
deriving DecidableEq, Repr

/-- Embedding of `wait_for_replication` (lib.rs lines 105-129): the
two per-target steps combined by `try_join!`.  Each step of the
shallow embedding is atomic, so the `try_join!` polling discipline
degenerates to: poll the sync-queue future first; if it is ready
with an error, return that error at once (the XDB future is dropped
unpolled); otherwise poll the XDB future and return its result. -/
def wait_for_replication (now query_now : Nat) (st : State)
    (sync_queue_monitor xdb_blobstore_monitor : MonitorResult)
    (config : ReplicationLagBlobstoreConfig) : GateResult :=
  let r1 := wait_for_table now query_now st.last_sync_queue_lag
    sync_queue_monitor config.sync_queue
  match r1.result with
  | Except.error e =>
    ⟨Except.error e, ⟨r1.last_lag, st.last_xdb_blobstore_lag⟩, r1.queries, 0⟩
  | Except.ok _ =>
    let r2 := wait_for_table now query_now st.last_xdb_blobstore_lag
      xdb_blobstore_monitor config.xdb_blobstore
    ⟨r2.result, ⟨r1.last_lag, r2.last_lag⟩, r1.queries, r2.queries⟩

theorem try_into_u64_coe (n : Nat) : try_into_u64 (n : Int) = Except.ok n := by
  simp [try_into_u64]

/-- Characterization of the per-target step on a cached observation and a
well-formed (nonnegative) configuration: it skips exactly when one of the
two guarded arms applies, and otherwise consults the monitor once. -/
theorem wait_for_table_cached (now query_now t0 lag maxa poll : Nat)
    (mon : MonitorResult) :
    wait_for_table now query_now (some (t0, lag)) mon
      (some ⟨(maxa : Int), (poll : Int)⟩) =
    if (now - t0 < poll ∧ lag < maxa) ∨ lag + (now - t0) < maxa then
      ⟨Except.ok (), some (t0, lag), 0⟩
    else
      match mon with
      | MonitorResult.success delay =>
        ⟨Except.ok (), some (query_now, delay), 1⟩
      | MonitorResult.failure code =>
        ⟨Except.error (GateError.monitor code), some (t0, lag), 1⟩ := by
  cases mon <;>
    by_cases h1 : now - t0 < poll ∧ lag < maxa <;>
      by_cases h2 : lag + (now - t0) < maxa <;>
        simp [wait_for_table, try_into_u64_coe, h1, h2]

/-- C1 counterexample: with `max_allowed_lag = 5`, `poll_interval = 10`
and a cached observation of lag `3` measured `4` time units ago, we have
`lag + elapsed = 7 ≥ 5`, yet the step issues no monitor query: the
recently-queried arm (`elapsed < poll_interval ∧ lag < max_allowed_lag`)
fires first and skips, so the claimed query is not issued "regardless of
`poll_interval`". -/
theorem C1_must_query_counterexample :
    5 ≤ 3 + (4 - 0) ∧
    (wait_for_table 4 4 (some (0, 3)) (MonitorResult.success 0)
      (some ⟨(5 : Int), (10 : Int)⟩)).queries = 0 := by
  decide

/-- C1 (amended): for a cached observation with
`lag + elapsed ≥ max_allowed_lag`, the step issues a fresh monitor query
unless the recently-queried arm applies, i.e. unless
`elapsed < poll_interval` and `lag < max_allowed_lag` both hold. -/
theorem C1_must_query_amended (now query_now t0 lag maxa poll : Nat)
    (mon : MonitorResult)
    (hbound : maxa ≤ lag + (now - t0))
    (hrecent : ¬ (now - t0 < poll ∧ lag < maxa)) :
    (wait_for_table now query_now (some (t0, lag)) mon
      (some ⟨(maxa : Int), (poll : Int)⟩)).queries = 1 := by
  rw [wait_for_table_cached,
    if_neg (fun h => h.elim hrecent (Nat.not_lt.mpr hbound))]
  cases mon <;> rfl

/-- Witness for C1 (amended) at `max_allowed_lag = 5`,
`poll_interval = 2`, cached lag `3` measured `4` units ago. -/
theorem C1_must_query_amended_witness :
    5 ≤ 3 + (4 - 0) ∧ ¬ ((4 : Nat) - 0 < 2 ∧ (3 : Nat) < 5) ∧
    (wait_for_table 4 9 (some (0, 3)) (MonitorResult.success 1)
      (some ⟨((5 : Nat) : Int), ((2 : Nat) : Int)⟩)).queries = 1 :=
  ⟨by decide, by decide,
    C1_must_query_amended 4 9 0 3 5 2 (MonitorResult.success 1)
      (by decide) (by decide)⟩

/-- C2 (confirmed): on a cached observation and well-formed config, the
step skips the monitor (no query, success) exactly when
`(elapsed < poll_interval ∧ lag < max_allowed_lag)` or
`(lag + elapsed < max_allowed_lag)`, and otherwise it queries the
monitor (exactly once). -/
theorem C2_skip_iff (now query_now t0 lag maxa poll : Nat)
    (mon : MonitorResult) :
    (((wait_for_table now query_now (some (t0, lag)) mon
        (some ⟨(maxa : Int), (poll : Int)⟩)).queries = 0 ∧
      (wait_for_table now query_now (some (t0, lag)) mon
        (some ⟨(maxa : Int), (poll : Int)⟩)).result = Except.ok ()) ↔
      ((now - t0 < poll ∧ lag < maxa) ∨ lag + (now - t0) < maxa)) ∧
    ((wait_for_table now query_now (some (t0, lag)) mon
        (some ⟨(maxa : Int), (poll : Int)⟩)).queries = 1 ↔
      ¬ ((now - t0 < poll ∧ lag < maxa) ∨ lag + (now - t0) < maxa)) := by
  rw [wait_for_table_cached]
  by_cases h : (now - t0 < poll ∧ lag < maxa) ∨ lag + (now - t0) < maxa
  · simp [h]
  · cases mon <;> simp [h]

/-- C3 (confirmed): with a cached observation satisfying
`lag < max_allowed_lag` and `elapsed < poll_interval`, the step issues
zero monitor queries and succeeds. -/
theorem C3_recent_skip (now query_now t0 lag maxa poll : Nat)
    (mon : MonitorResult)
    (hlag : lag < maxa) (hpoll : now - t0 < poll) :
    (wait_for_table now query_now (some (t0, lag)) mon
      (some ⟨(maxa : Int), (poll : Int)⟩)).queries = 0 ∧
    (wait_for_table now query_now (some (t0, lag)) mon
      (some ⟨(maxa : Int), (poll : Int)⟩)).result = Except.ok () := by
  rw [wait_for_table_cached, if_pos (Or.inl ⟨hpoll, hlag⟩)]
  exact ⟨rfl, rfl⟩

/-- Witness for C3 at lag `1 < 5`, elapsed `2 < 10`. -/
theorem C3_recent_skip_witness :
    (1 : Nat) < 5 ∧ (2 : Nat) - 0 < 10 ∧
    ((wait_for_table 2 2 (some (0, 1)) (MonitorResult.failure 3)
      (some ⟨((5 : Nat) : Int), ((10 : Nat) : Int)⟩)).queries = 0 ∧
     (wait_for_table 2 2 (some (0, 1)) (MonitorResult.failure 3)
      (some ⟨((5 : Nat) : Int), ((10 : Nat) : Int)⟩)).result = Except.ok ()) :=
  ⟨by decide, by decide,
    C3_recent_skip 2 2 0 1 5 10 (MonitorResult.failure 3)
      (by decide) (by decide)⟩

/-- C4 (confirmed): a target with no `ThresholdConfig` is skipped
entirely: its per-target step succeeds unconditionally, issues no
monitor query, and leaves its cache slot untouched (indeed its result is
independent of the cached observation); at the call level the overall
result is exactly the other target's result, so the call never fails
because of the unconfigured target. -/
theorem C4_unconfigured_target (now query_now : Nat) (st : State)
    (m1 m2 : MonitorResult) (c1 c2 : Option ReplicationLagTableConfig) :
    (wait_for_table now query_now st.last_sync_queue_lag m1 none =
      ⟨Except.ok (), st.last_sync_queue_lag, 0⟩) ∧
    ((wait_for_replication now query_now st m1 m2
        ⟨none, c2⟩).sync_queue_queries = 0 ∧
     (wait_for_replication now query_now st m1 m2
        ⟨none, c2⟩).state.last_sync_queue_lag = st.last_sync_queue_lag ∧
     (wait_for_replication now query_now st m1 m2 ⟨none, c2⟩).result =
       (wait_for_table now query_now st.last_xdb_blobstore_lag m2
         c2).result) ∧
    ((wait_for_replication now query_now st m1 m2
        ⟨c1, none⟩).xdb_blobstore_queries = 0 ∧
     (wait_for_replication now query_now st m1 m2
        ⟨c1, none⟩).state.last_xdb_blobstore_lag =
       st.last_xdb_blobstore_lag ∧
     (wait_for_replication now query_now st m1 m2 ⟨c1, none⟩).result =
       (wait_for_table now query_now st.last_sync_queue_lag m1
         c1).result) := by
  refine ⟨rfl, ⟨rfl, rfl, rfl⟩, ?_⟩
  simp only [wait_for_replication]
  cases hr : (wait_for_table now query_now st.last_sync_queue_lag m1
      c1).result with
  | error e => simp [hr]
  | ok u => cases u; simp [hr, wait_for_table]

/-- C5 (confirmed): whenever the per-target step actually queries the
monitor, a successful query succeeds and overwrites the cache slot with
`(query_now, delay)`, while a failing query (which, the decision being
independent of the monitor outcome, is issued in exactly the same
situations) propagates the monitor error unmodified, is not retried
(exactly one query), and leaves the cache slot exactly as it was. -/
theorem C5_monitor_query_update (now query_now : Nat)
    (last : Option (Nat × Nat)) (config : Option ReplicationLagTableConfig)
    (delay code : Nat)
    (hq : (wait_for_table now query_now last (MonitorResult.success delay)
      config).queries = 1) :
    (wait_for_table now query_now last (MonitorResult.success delay)
      config).result = Except.ok () ∧
    (wait_for_table now query_now last (MonitorResult.success delay)
      config).last_lag = some (query_now, delay) ∧
    (wait_for_table now query_now last (MonitorResult.failure code)
      config).queries = 1 ∧
    (wait_for_table now query_now last (MonitorResult.failure code)
      config).result = Except.error (GateError.monitor code) ∧
    (wait_for_table now query_now last (MonitorResult.failure code)
      config).last_lag = last := by
  cases config with
  | none => simp [wait_for_table] at hq
  | some raw =>
    cases hmax : try_into_u64 raw.max_replication_lag_allowed_ms with
    | error e => simp [wait_for_table, hmax] at hq
    | ok maxa =>
      cases hpoll : try_into_u64 raw.poll_interval_ms with
      | error e => simp [wait_for_table, hmax, hpoll] at hq
      | ok poll =>
        cases last with
        | none => simp [wait_for_table, hmax, hpoll]
        | some p =>
          obtain ⟨t0, lag⟩ := p
          by_cases h1 : now - t0 < poll ∧ lag < maxa
          · simp [wait_for_table, hmax, hpoll, h1] at hq
          · by_cases h2 : lag + (now - t0) < maxa
            · simp [wait_for_table, hmax, hpoll, h1, h2] at hq
            · simp [wait_for_table, hmax, hpoll, h1, h2]

/-- Witness for C5: no cached observation, so the step queries; checked
for a successful query with delay `2` and a failing query with code
`9`. -/
theorem C5_monitor_query_update_witness :
    (wait_for_table 0 7 none (MonitorResult.success 2)
      (some ⟨(5 : Int), (10 : Int)⟩)).result = Except.ok () ∧
    (wait_for_table 0 7 none (MonitorResult.success 2)
      (some ⟨(5 : Int), (10 : Int)⟩)).last_lag = some (7, 2) ∧
    (wait_for_table 0 7 none (MonitorResult.failure 9)
      (some ⟨(5 : Int), (10 : Int)⟩)).queries = 1 ∧
    (wait_for_table 0 7 none (MonitorResult.failure 9)
      (some ⟨(5 : Int), (10 : Int)⟩)).result =
      Except.error (GateError.monitor 9) ∧
    (wait_for_table 0 7 none (MonitorResult.failure 9)
      (some ⟨(5 : Int), (10 : Int)⟩)).last_lag = none :=
  C5_monitor_query_update 0 7 none (some ⟨(5 : Int), (10 : Int)⟩) 2 9
    (by decide)

/-- C6 (confirmed): if a measurement at time `t0` observed lag `lag0`,
the true lag at time `now ≥ t0` can have grown by at most `now - t0`
(the monotonic assumption `hmono`), and the conservative bound
`lag0 + (now - t0) < max_allowed_lag` holds, then the backend is still
within budget at `now`, and the step indeed reuses the cache: it issues
no fresh query. -/
theorem C6_conservative_reuse (now query_now t0 lag0 actual_lag maxa
    poll : Nat) (mon : MonitorResult)
    (ht : t0 ≤ now)
    (hmono : actual_lag ≤ lag0 + (now - t0))
    (hbound : lag0 + (now - t0) < maxa) :
    actual_lag < maxa ∧
    (wait_for_table now query_now (some (t0, lag0)) mon
      (some ⟨(maxa : Int), (poll : Int)⟩)).queries = 0 :=
  ⟨lt_of_le_of_lt hmono hbound, by
    rw [wait_for_table_cached, if_pos (Or.inr hbound)]⟩

/-- Witness for C6 at `t0 = 1 ≤ now = 4`, cached lag `1`, actual lag
`3 ≤ 1 + 3`, budget `6`. -/
theorem C6_conservative_reuse_witness :
    (1 : Nat) ≤ 4 ∧ (3 : Nat) ≤ 1 + (4 - 1) ∧ 1 + (4 - 1) < 6 ∧
    ((3 : Nat) < 6 ∧
     (wait_for_table 4 4 (some (1, 1)) (MonitorResult.failure 0)
       (some ⟨((6 : Nat) : Int), ((0 : Nat) : Int)⟩)).queries = 0) :=
  ⟨by decide, by decide, by decide,
    C6_conservative_reuse 4 4 1 1 3 6 0 (MonitorResult.failure 0)
      (by decide) (by decide) (by decide)⟩

/-- C9 (confirmed): for any configured target whose raw thresholds are
malformed (a negative `max_replication_lag_allowed_ms` or a negative
`poll_interval_ms`, the only values the unsigned conversion rejects),
the step fails with the conversion error before the monitor is ever
invoked: zero monitor queries are issued. -/
theorem C9_malformed_config (now query_now : Nat)
    (last : Option (Nat × Nat)) (mon : MonitorResult)
    (raw : ReplicationLagTableConfig)
    (hbad : raw.max_replication_lag_allowed_ms < 0 ∨
      raw.poll_interval_ms < 0) :
    (wait_for_table now query_now last mon (some raw)).result =
      Except.error GateError.conversion ∧
    (wait_for_table now query_now last mon (some raw)).queries = 0 := by
  by_cases hmax : raw.max_replication_lag_allowed_ms < 0
  · simp [wait_for_table, try_into_u64, hmax]
  · have hpoll : raw.poll_interval_ms < 0 := hbad.resolve_left hmax
    simp [wait_for_table, try_into_u64, hmax, hpoll]

/-- Witness for C9 at a configuration with
`max_replication_lag_allowed_ms = -3`. -/
theorem C9_malformed_config_witness :
    ((-3 : Int) < 0 ∨ (10 : Int) < 0) ∧
    ((wait_for_table 1 1 none (MonitorResult.success 0)
       (some ⟨(-3 : Int), (10 : Int)⟩)).result =
       Except.error GateError.conversion ∧
     (wait_for_table 1 1 none (MonitorResult.success 0)
       (some ⟨(-3 : Int), (10 : Int)⟩)).queries = 0) :=
  ⟨Or.inl (by decide),
    C9_malformed_config 1 1 none (MonitorResult.success 0)
      ⟨(-3 : Int), (10 : Int)⟩ (Or.inl (by decide))⟩

/-- C10 (confirmed): both unsigned conversions happen before the
cached-observation skip checks, so on a malformed configuration the step
fails with the conversion error for every cached observation — even one
that would otherwise have licensed skipping — and issues no query and
leaves the observation unchanged. -/
theorem C10_conversion_before_cache (now query_now t0 lag : Nat)
    (mon : MonitorResult) (raw : ReplicationLagTableConfig)
    (hbad : raw.max_replication_lag_allowed_ms < 0 ∨
      raw.poll_interval_ms < 0) :
    (wait_for_table now query_now (some (t0, lag)) mon
      (some raw)).result = Except.error GateError.conversion ∧
    (wait_for_table now query_now (some (t0, lag)) mon
      (some raw)).queries = 0 ∧
    (wait_for_table now query_now (some (t0, lag)) mon
      (some raw)).last_lag = some (t0, lag) := by
  by_cases hmax : raw.max_replication_lag_allowed_ms < 0
  · simp [wait_for_table, try_into_u64, hmax]
  · have hpoll : raw.poll_interval_ms < 0 := hbad.resolve_left hmax
    simp [wait_for_table, try_into_u64, hmax, hpoll]

/-- Witness for C10: a fresh observation of zero lag would license
skipping under any well-formed config, yet the negative
`poll_interval_ms` fails the call first. -/
theorem C10_conversion_before_cache_witness :
    ((7 : Int) < 0 ∨ (-1 : Int) < 0) ∧
    ((wait_for_table 0 0 (some (0, 0)) (MonitorResult.success 0)
       (some ⟨(7 : Int), (-1 : Int)⟩)).result =
       Except.error GateError.conversion ∧
     (wait_for_table 0 0 (some (0, 0)) (MonitorResult.success 0)
       (some ⟨(7 : Int), (-1 : Int)⟩)).queries = 0 ∧
     (wait_for_table 0 0 (some (0, 0)) (MonitorResult.success 0)
       (some ⟨(7 : Int), (-1 : Int)⟩)).last_lag = some (0, 0)) :=
  ⟨Or.inr (by decide),
    C10_conversion_before_cache 0 0 0 0 (MonitorResult.success 0)
      ⟨(7 : Int), (-1 : Int)⟩ (Or.inr (by decide))⟩
